import Mathlib

/-!
Shallow embedding of the athletic_app backend core (metrics/aggregation
engine, invite lifecycle, session duplicate-guard) from
`src/backend/app`.  Dates are modelled as integers (day numbers), SQL
`Numeric` values as rationals, timestamps as naturals supplied by the
caller (the code reads `datetime.utcnow()` / `date.today()` from the
environment).  Each HTTP endpoint body becomes a pure function from the
database state and request to `Except ApiError (result x DB)`; raising
an `HTTPException` before `commit` leaves the store unchanged, which the
`Except` error branch models by producing no successor state.
-/

inductive UserRole where
  | ATHLETE
  | COACH
deriving DecidableEq, Repr

inductive InviteStatus where
  | PENDING
  | ACCEPTED
  | DECLINED
deriving DecidableEq, Repr

inductive SessionType where
  | RODAJE
  | PASADAS
  | FARTLEK
  | CUESTAS
  | FUERZA
  | TECNICA
  | COMPETENCIA
  | DESCANSO
deriving DecidableEq, Repr

/-- `models/user.py User` (credential hash omitted; no claim touches it). -/
structure User where
  id : Nat
  name : String
  email : String
  role : UserRole
deriving DecidableEq, Repr

/-- `models/user.py AthleteProfile`. -/
structure AthleteProfile where
  user_id : Nat
  height_cm : Option ℚ
  weight_kg : Option ℚ
  category : Option String
deriving DecidableEq, Repr

/-- `models/user.py CoachAthlete`. -/
structure CoachAthlete where
  id : Nat
  coach_id : Nat
  athlete_id : Nat
  since_date : Int
deriving DecidableEq, Repr

/-- `models/user.py CoachInvite`. -/
structure CoachInvite where
  id : Nat
  coach_id : Nat
  athlete_id : Option Nat
  athlete_email : String
  status : InviteStatus
  created_at : Nat
  responded_at : Option Nat
deriving DecidableEq, Repr

/-- `models/plan.py TrainingPlan`. -/
structure TrainingPlan where
  id : Nat
  athlete_id : Nat
  name : String
  goal_type : Option String
  start_date : Int
  end_date : Int
  notes : Option String
deriving DecidableEq, Repr

/-- `models/plan.py TrainingSessionPlanned`. -/
structure TrainingSessionPlanned where
  id : Nat
  plan_id : Nat
  date : Int
  type : SessionType
  title : String
  description : Option String
  planned_distance : Option ℚ
  planned_duration : Option Nat
  planned_rpe : Option Nat
  notes_for_athlete : Option String
deriving DecidableEq, Repr

/-- `models/session.py TrainingSessionDone`. -/
structure TrainingSessionDone where
  id : Nat
  athlete_id : Nat
  planned_session_id : Option Nat
  date : Int
  actual_distance : Option ℚ
  actual_duration : Option Nat
  actual_rpe : Option Nat
  surface : Option String
  shoes : Option String
  notes : Option String
deriving DecidableEq, Repr

/-- The relational store, with one autoincrement counter per table. -/
structure DB where
  users : List User
  profiles : List AthleteProfile
  links : List CoachAthlete
  invites : List CoachInvite
  plans : List TrainingPlan
  plannedSessions : List TrainingSessionPlanned
  dones : List TrainingSessionDone
  next_user_id : Nat
  next_link_id : Nat
  next_invite_id : Nat
  next_plan_id : Nat
  next_planned_id : Nat
  next_done_id : Nat
deriving DecidableEq, Repr

/-- HTTPException kinds raised by the routers (404 / 403 / 400). -/
inductive ApiError where
  | notFound (detail : String)
  | forbidden (detail : String)
  | badRequest (detail : String)
deriving DecidableEq, Repr

/-- Python truthiness of an `Optional[int]`: `None` and `0` are falsy. -/
def pyTruthy (o : Option Nat) : Bool := o.getD 0 != 0

/-- Python `x or d` for an `Optional[int]` (`None` and `0` fall back). -/
def pyOrNat (o : Option Nat) (d : Nat) : Nat :=
  if pyTruthy o then o.getD 0 else d

/-- Python `x or d` for an `Optional[str]` (`None` and `""` fall back). -/
def pyOrStr (o : Option String) (d : String) : String :=
  match o with
  | some s => if s = "" then d else s
  | none => d

/-- Round a rational to the nearest integer, ties to even: the semantics
of Python 3 `round` on an exactly represented value.  With `q = n / d`
in lowest terms (`d > 0`), `f` is the floor and `2 * (n - f * d)`
compares the fractional part against one half. -/
def rhe (q : ℚ) : ℤ :=
  let n := q.num
  let d := (q.den : ℤ)
  let f := Int.fdiv n d
  let twiceFrac := 2 * (n - f * d)
  if twiceFrac < d then f
  else if d < twiceFrac then f + 1
  else if f % 2 = 0 then f else f + 1

/-- Python `round(q, 2)` on an exactly represented value. -/
def round2 (q : ℚ) : ℚ := (rhe (100 * q) : ℚ) / 100

/-- FK lookup of a planned session's owning plan (`planned.plan`). -/
def DB.planOf (db : DB) (s : TrainingSessionPlanned) : Option TrainingPlan :=
  db.plans.find? (fun p => p.id == s.plan_id)

/-- Planned sessions of an athlete with `start <= date <= stop`:
the `TrainingPlan` x `TrainingSessionPlanned` join used by
`_build_coach_metrics` / `_build_weekly_trend` in `dashboard.py`. -/
def plannedSessionsInWindow (db : DB) (aid : Nat) (start stop : Int) :
    List TrainingSessionPlanned :=
  db.plannedSessions.filter (fun s =>
    decide (start ≤ s.date) && decide (s.date ≤ stop) &&
      (match db.planOf s with
       | some p => p.athlete_id == aid
       | none => false))

/-- Done sessions of an athlete with `start <= date <= stop`. -/
def doneSessionsInWindow (db : DB) (aid : Nat) (start stop : Int) :
    List TrainingSessionDone :=
  db.dones.filter (fun d =>
    d.athlete_id == aid && decide (start ≤ d.date) && decide (d.date ≤ stop))

/-- `coalesce(sum(actual_distance), 0)` over a row set. -/
def distanceSum (rows : List TrainingSessionDone) : ℚ :=
  (rows.map (fun d => d.actual_distance.getD 0)).sum

/-- SQL `avg(actual_rpe)`: mean of the non-null values, `NULL` when none. -/
def avgRpe (rows : List TrainingSessionDone) : Option ℚ :=
  let rpes := rows.filterMap (fun d => d.actual_rpe)
  if rpes.length = 0 then none
  else some (((rpes.map (fun n => (n : ℚ))).sum) / (rpes.length : ℚ))

/-- `schemas/dashboard.py AthleteMetrics` (distance kept exact). -/
structure AthleteMetrics where
  athlete_id : Nat
  athlete_name : String
  planned_sessions_week : Nat
  completed_sessions_week : Nat
  completed_distance_week : ℚ
  compliance_rate : Option ℚ
  pending_sessions_today : Int
deriving DecidableEq, Repr

/-- `schemas/dashboard.py CoachTrendPoint` (window bounds as day numbers). -/
structure CoachTrendPoint where
  week_start : Int
  week_end : Int
  planned_sessions : Nat
  completed_sessions : Nat
  total_distance : ℚ
  compliance_rate : Option ℚ
deriving DecidableEq, Repr

/-- The coach-athlete join rows of `_build_coach_metrics`. -/
def coachAthleteRows (db : DB) (coachId : Nat) : List (Nat × String) :=
  db.links.filterMap (fun l =>
    if l.coach_id == coachId then
      (db.users.find? (fun u => u.id == l.athlete_id)).map
        (fun u => (l.athlete_id, u.name))
    else none)

/-- The per-athlete row of `_build_coach_metrics` (`dashboard.py`). -/
def metricsFor (db : DB) (today : Int) (row : Nat × String) : AthleteMetrics :=
  let weekStart := today - 6
  let plannedCount := (plannedSessionsInWindow db row.1 weekStart today).length
  let doneWeek := doneSessionsInWindow db row.1 weekStart today
  { athlete_id := row.1
    athlete_name := row.2
    planned_sessions_week := plannedCount
    completed_sessions_week := doneWeek.length
    completed_distance_week := distanceSum doneWeek
    compliance_rate :=
      if 0 < plannedCount then
        some (round2 ((doneWeek.length : ℚ) / (plannedCount : ℚ)))
      else none
    pending_sessions_today :=
      max 0 (((plannedSessionsInWindow db row.1 today today).length : Int) -
        ((doneSessionsInWindow db row.1 today today).length : Int)) }

/-- `_build_coach_metrics(db, coach_id)` with `today` made explicit. -/
def buildCoachMetrics (db : DB) (today : Int) (coachId : Nat) :
    List AthleteMetrics :=
  (coachAthleteRows db coachId).map (metricsFor db today)

/-- Planned-session count over the whole roster for one trend window. -/
def rosterPlannedCount (db : DB) (aids : List Nat) (start stop : Int) : Nat :=
  (db.plannedSessions.filter (fun s =>
    decide (start ≤ s.date) && decide (s.date ≤ stop) &&
      (match db.planOf s with
       | some p => aids.contains p.athlete_id
       | none => false))).length

/-- Done sessions over the whole roster for one trend window. -/
def rosterDones (db : DB) (aids : List Nat) (start stop : Int) :
    List TrainingSessionDone :=
  db.dones.filter (fun d =>
    aids.contains d.athlete_id && decide (start ≤ d.date) && decide (d.date ≤ stop))

/-- One point of `_build_weekly_trend` (`dashboard.py`). -/
def trendPoint (db : DB) (aids : List Nat) (start stop : Int) : CoachTrendPoint :=
  let plannedTotal := rosterPlannedCount db aids start stop
  let completedRows := rosterDones db aids start stop
  { week_start := start
    week_end := stop
    planned_sessions := plannedTotal
    completed_sessions := completedRows.length
    total_distance := distanceSum completedRows
    compliance_rate :=
      if 0 < plannedTotal then
        some (round2 ((completedRows.length : ℚ) / (plannedTotal : ℚ)))
      else none }

/-- `_build_weekly_trend(db, athlete_ids, weeks)`: offsets `weeks-1 .. 0`. -/
def buildWeeklyTrend (db : DB) (today : Int) (aids : List Nat) (weeks : Nat) :
    List CoachTrendPoint :=
  if aids.isEmpty then []
  else
    ((List.range weeks).reverse).map (fun offset =>
      let periodEnd := today - (offset : Int) * 7
      trendPoint db aids (periodEnd - 6) periodEnd)

/-- `schemas/session.py TrainingSessionDoneCreate`. -/
structure DoneCreate where
  date : Int
  planned_session_id : Option Nat
  actual_distance : Option ℚ
  actual_duration : Option Nat
  actual_rpe : Option Nat
  surface : Option String
  shoes : Option String
  notes : Option String
deriving DecidableEq, Repr

/-- The duplicate test of `_assert_no_manual_duplicate` on create
(`sessions.py`): another done-record of the athlete, same date, with no
planned-session reference. -/
def manualDuplicateExists (db : DB) (aid : Nat) (d : Int) : Bool :=
  db.dones.any (fun r =>
    r.athlete_id == aid && r.date == d && r.planned_session_id == none)

/-- The duplicate test of the planned branch of `log_completed_session`:
another done-record of the athlete referencing the same planned session. -/
def plannedDuplicateExists (db : DB) (aid : Nat) (pid : Nat) : Bool :=
  db.dones.any (fun r =>
    r.athlete_id == aid && r.planned_session_id == some pid)

/-- `sessions.py log_completed_session` for athlete `uid`. -/
def logCompletedSession (db : DB) (uid : Nat) (p : DoneCreate) :
    Except ApiError (TrainingSessionDone × DB) :=
  let step : Except ApiError Unit :=
    if pyTruthy p.planned_session_id then
      let pid := p.planned_session_id.getD 0
      match db.plannedSessions.find? (fun s => s.id == pid) with
      | none => .error (.notFound "Planned session not found.")
      | some planned =>
        if (db.planOf planned).map (fun pl => pl.athlete_id) ≠ some uid then
          .error (.forbidden "Not your session.")
        else if plannedDuplicateExists db uid pid then
          .error (.badRequest "You already logged this planned session.")
        else .ok ()
    else if manualDuplicateExists db uid p.date then
      .error (.badRequest "A session for this date already exists.")
    else .ok ()
  match step with
  | .error e => .error e
  | .ok _ =>
    let done : TrainingSessionDone :=
      { id := db.next_done_id
        athlete_id := uid
        planned_session_id := p.planned_session_id
        date := p.date
        actual_distance := p.actual_distance
        actual_duration := p.actual_duration
        actual_rpe := p.actual_rpe
        surface := p.surface
        shoes := p.shoes
        notes := p.notes }
    .ok (done, { db with
      dones := db.dones ++ [done]
      next_done_id := db.next_done_id + 1 })

/-- The pending-invite lookup of `invite_athlete` (`auth.py`). -/
def findPendingInvite (db : DB) (coachId : Nat) (email : String) :
    Option CoachInvite :=
  db.invites.find? (fun i =>
    i.coach_id == coachId && i.athlete_email == email &&
      i.status == InviteStatus.PENDING)

/-- Row update by primary key (SQLAlchemy mutation of a fetched row). -/
def updateInvite (db : DB) (inviteId : Nat) (new : CoachInvite) : DB :=
  { db with invites := db.invites.map (fun j => if j.id == inviteId then new else j) }

/-- `auth.py invite_athlete` for coach `coachId`; `now` is the clock read
used for `created_at`.  The invite-email side effect is outside the model. -/
def inviteAthlete (db : DB) (coachId : Nat) (athleteEmail : String) (now : Nat) :
    Except ApiError (CoachInvite × DB) :=
  let athleteFound := db.users.find? (fun u => u.email == athleteEmail)
  let badRole : Bool :=
    match athleteFound with
    | some a => a.role != UserRole.ATHLETE
    | none => false
  if badRole then .error (.badRequest "Email belongs to a coach.")
  else
    let linked : Bool :=
      match athleteFound with
      | some a => db.links.any (fun l => l.coach_id == coachId && l.athlete_id == a.id)
      | none => false
    if linked then .error (.badRequest "Athlete already linked.")
    else
      match findPendingInvite db coachId athleteEmail with
      | some inv =>
        match athleteFound with
        | some a =>
          if inv.athlete_id = none then
            let bound := { inv with athlete_id := some a.id }
            .ok (bound, updateInvite db inv.id bound)
          else .ok (inv, db)
        | none => .ok (inv, db)
      | none =>
        let inv : CoachInvite :=
          { id := db.next_invite_id
            coach_id := coachId
            athlete_id := athleteFound.map (fun a => a.id)
            athlete_email :=
              match athleteFound with
              | some a => a.email
              | none => athleteEmail
            status := InviteStatus.PENDING
            created_at := now
            responded_at := none }
        .ok (inv, { db with
          invites := db.invites ++ [inv]
          next_invite_id := db.next_invite_id + 1 })

inductive InviteAction where
  | ACCEPT
  | DECLINE
deriving DecidableEq, Repr

/-- `auth.py respond_invite` for athlete `uid`; `now` is the clock read
stored in `responded_at`. -/
def respondInvite (db : DB) (uid : Nat) (inviteId : Nat) (action : InviteAction)
    (now : Nat) : Except ApiError (CoachInvite × DB) :=
  match db.invites.find? (fun i => i.id == inviteId) with
  | none => .error (.notFound "Invite not found.")
  | some inv =>
    if inv.athlete_id ≠ some uid then .error (.notFound "Invite not found.")
    else if inv.status ≠ InviteStatus.PENDING then
      .error (.badRequest "Invite already processed.")
    else
      let newStatus :=
        match action with
        | .ACCEPT => InviteStatus.ACCEPTED
        | .DECLINE => InviteStatus.DECLINED
      let responded := { inv with status := newStatus, responded_at := some now }
      let db1 := updateInvite db inv.id responded
      let db2 :=
        match action with
        | .ACCEPT =>
          if db.links.any (fun l => l.coach_id == inv.coach_id && l.athlete_id == uid)
          then db1
          else { db1 with
            links := db1.links ++
              [{ id := db.next_link_id
                 coach_id := inv.coach_id
                 athlete_id := uid
                 since_date := 0 }]
            next_link_id := db.next_link_id + 1 }
        | .DECLINE => db1
      .ok (responded, db2)

/-- `auth.py remind_invite` for coach `coachId`: side effect only. -/
def remindInvite (db : DB) (coachId : Nat) (inviteId : Nat) :
    Except ApiError (CoachInvite × DB) :=
  match db.invites.find? (fun i => i.id == inviteId) with
  | none => .error (.notFound "Invite not found.")
  | some inv =>
    if inv.coach_id ≠ coachId then .error (.notFound "Invite not found.")
    else if inv.status ≠ InviteStatus.PENDING then
      .error (.badRequest "Invite already processed.")
    else .ok (inv, db)

/-- `auth.py _attach_pending_invites_to_user`: bind every PENDING,
unbound invite targeting the athlete's email to the athlete. -/
def attachPendingInvitesToUser (db : DB) (athlete : User) : DB :=
  if athlete.role ≠ UserRole.ATHLETE then db
  else { db with invites := db.invites.map (fun i =>
    if i.athlete_id == none && i.athlete_email == athlete.email &&
        i.status == InviteStatus.PENDING
    then { i with athlete_id := some athlete.id }
    else i) }

/-- `schemas/user.py UserCreate` (password omitted; hashing is external). -/
structure UserCreate where
  name : String
  email : String
  role : UserRole
deriving DecidableEq, Repr

/-- `auth.py register_user`. -/
def registerUser (db : DB) (u : UserCreate) : Except ApiError (User × DB) :=
  if db.users.any (fun x => x.email == u.email) then
    .error (.badRequest "Email already registered.")
  else
    let user : User :=
      { id := db.next_user_id, name := u.name, email := u.email, role := u.role }
    let db1 := { db with
      users := db.users ++ [user]
      next_user_id := db.next_user_id + 1 }
    let db2 :=
      if user.role = UserRole.ATHLETE then
        attachPendingInvitesToUser
          { db1 with profiles := db1.profiles ++
              [{ user_id := user.id, height_cm := none, weight_kg := none,
                 category := none }] }
          user
      else db1
    .ok (user, db2)

/-- `auth.py list_athlete_invites`: attach, then the caller's received
invites ordered by `created_at` descending. -/
def listAthleteInvites (db : DB) (athlete : User) : List CoachInvite × DB :=
  let db1 := attachPendingInvitesToUser db athlete
  ((db1.invites.filter (fun i => i.athlete_id == some athlete.id)).mergeSort
      (fun a b => b.created_at ≤ a.created_at),
    db1)

/-- `dependencies.py ensure_athlete_access` for a COACH caller: a
coach-athlete link must exist. -/
def coachHasAccess (db : DB) (coachId aid : Nat) : Bool :=
  db.links.any (fun l => l.coach_id == coachId && l.athlete_id == aid)

/-- `schemas/plan.py TrainingSessionPlannedCreate`. -/
structure PlannedCreate where
  date : Int
  type : SessionType
  title : String
  description : Option String
  planned_distance : Option ℚ
  planned_duration : Option Nat
  planned_rpe : Option Nat
  notes_for_athlete : Option String
deriving DecidableEq, Repr

/-- `schemas/plan.py TrainingPlanCreate`. -/
structure PlanCreate where
  athlete_id : Nat
  name : String
  goal_type : Option String
  start_date : Int
  end_date : Int
  notes : Option String
  sessions : List PlannedCreate
deriving DecidableEq, Repr

/-- `schemas/plan.py TrainingPlanDuplicateRequest`. -/
structure PlanDuplicateRequest where
  start_date : Int
  target_athlete_id : Option Nat
  name : Option String
  end_date : Option Int
  goal_type : Option String
  notes : Option String
deriving DecidableEq, Repr

/-- Insert the coach-athlete link when absent (the tail of `create_plan`
and `duplicate_plan` in `plans.py`). -/
def ensureLink (db : DB) (coachId aid : Nat) : DB :=
  if db.links.any (fun l => l.coach_id == coachId && l.athlete_id == aid) then db
  else { db with
    links := db.links ++
      [{ id := db.next_link_id, coach_id := coachId, athlete_id := aid,
         since_date := 0 }]
    next_link_id := db.next_link_id + 1 }

/-- `plans.py create_plan` for coach `coachId` (no access guard in the
source: the plan is created and the link added when missing). -/
def createPlan (db : DB) (coachId : Nat) (p : PlanCreate) :
    Except ApiError (TrainingPlan × DB) :=
  let newPlan : TrainingPlan :=
    { id := db.next_plan_id
      athlete_id := p.athlete_id
      name := p.name
      goal_type := p.goal_type
      start_date := p.start_date
      end_date := p.end_date
      notes := p.notes }
  let newSessions : List TrainingSessionPlanned :=
    p.sessions.enum.map (fun ks =>
      { id := db.next_planned_id + ks.1
        plan_id := newPlan.id
        date := ks.2.date
        type := ks.2.type
        title := ks.2.title
        description := ks.2.description
        planned_distance := ks.2.planned_distance
        planned_duration := ks.2.planned_duration
        planned_rpe := ks.2.planned_rpe
        notes_for_athlete := ks.2.notes_for_athlete })
  let db1 := { db with
    plans := db.plans ++ [newPlan]
    plannedSessions := db.plannedSessions ++ newSessions
    next_plan_id := db.next_plan_id + 1
    next_planned_id := db.next_planned_id + p.sessions.length }
  .ok (newPlan, ensureLink db1 coachId p.athlete_id)

/-- The sessions owned by a plan (`plan.sessions`). -/
def sessionsOfPlan (db : DB) (planId : Nat) : List TrainingSessionPlanned :=
  db.plannedSessions.filter (fun s => s.plan_id == planId)

/-- `plans.py duplicate_plan` for coach `coachId`: shift every session
date by the difference between the requested and original start dates. -/
def duplicatePlan (db : DB) (coachId : Nat) (planId : Nat)
    (p : PlanDuplicateRequest) :
    Except ApiError (TrainingPlan × List TrainingSessionPlanned × DB) :=
  match db.plans.find? (fun pl => pl.id == planId) with
  | none => .error (.notFound "Plan not found.")
  | some plan =>
    if ¬ coachHasAccess db coachId plan.athlete_id then
      .error (.forbidden "Access denied.")
    else
      let target := pyOrNat p.target_athlete_id plan.athlete_id
      if ¬ coachHasAccess db coachId target then
        .error (.forbidden "Access denied.")
      else
        let shiftDays := p.start_date - plan.start_date
        let newEnd := p.end_date.getD (plan.end_date + shiftDays)
        let newPlan : TrainingPlan :=
          { id := db.next_plan_id
            athlete_id := target
            name := pyOrStr p.name (plan.name ++ " Copy")
            goal_type := if p.goal_type.isSome then p.goal_type else plan.goal_type
            start_date := p.start_date
            end_date := newEnd
            notes := if p.notes.isSome then p.notes else plan.notes }
        let origSessions := sessionsOfPlan db plan.id
        let newSessions : List TrainingSessionPlanned :=
          origSessions.enum.map (fun ks =>
            { id := db.next_planned_id + ks.1
              plan_id := newPlan.id
              date := ks.2.date + shiftDays
              type := ks.2.type
              title := ks.2.title
              description := ks.2.description
              planned_distance := ks.2.planned_distance
              planned_duration := ks.2.planned_duration
              planned_rpe := ks.2.planned_rpe
              notes_for_athlete := ks.2.notes_for_athlete })
        let db1 := { db with
          plans := db.plans ++ [newPlan]
          plannedSessions := db.plannedSessions ++ newSessions
          next_plan_id := db.next_plan_id + 1
          next_planned_id := db.next_planned_id + origSessions.length }
        .ok (newPlan, newSessions, ensureLink db1 coachId target)

/-- The per-window aggregate of `athletes.py _aggregate_period`. -/
structure PeriodStats where
  total_distance : ℚ
  sessions : Nat
  avg_rpe : Option ℚ
deriving DecidableEq, Repr

/-- `athletes.py _aggregate_period`: `coalesce(sum, 0)`, `count`, `avg`
over the athlete's done sessions with `start <= date <= stop`. -/
def aggregatePeriod (db : DB) (aid : Nat) (start stop : Int) : PeriodStats :=
  let rows := doneSessionsInWindow db aid start stop
  { total_distance := distanceSum rows
    sessions := rows.length
    avg_rpe := avgRpe rows }

/-- The SQL enum-to-string cast of a session type (`cast(type, String)`). -/
def SessionType.label : SessionType → String
  | .RODAJE => "RODAJE"
  | .PASADAS => "PASADAS"
  | .FARTLEK => "FARTLEK"
  | .CUESTAS => "CUESTAS"
  | .FUERZA => "FUERZA"
  | .TECNICA => "TECNICA"
  | .COMPETENCIA => "COMPETENCIA"
  | .DESCANSO => "DESCANSO"

/-- `coalesce(cast(planned.type, String), "MANUAL")` after the outer join
of `athlete_history`. -/
def sessionTypeLabel (db : DB) (d : TrainingSessionDone) : String :=
  match d.planned_session_id.bind
      (fun pid => db.plannedSessions.find? (fun s => s.id == pid)) with
  | some s => s.type.label
  | none => "MANUAL"

/-- The grouped type distribution of `athlete_history` over a window. -/
def typeDistribution (db : DB) (aid : Nat) (start stop : Int) :
    List (String × Nat) :=
  let rows := doneSessionsInWindow db aid start stop
  ((rows.map (sessionTypeLabel db)).dedup).map (fun lb =>
    (lb, (rows.filter (fun d => sessionTypeLabel db d == lb)).length))

/-- `schemas/history.py AthleteHistorySummary`. -/
structure AthleteHistorySummary where
  athlete_id : Nat
  week_total_distance : ℚ
  week_sessions : Nat
  week_avg_rpe : Option ℚ
  month_total_distance : ℚ
  month_sessions : Nat
  month_avg_rpe : Option ℚ
  session_type_distribution : List (String × Nat)
deriving DecidableEq, Repr

/-- `athletes.py athlete_history` with `today` made explicit. -/
def athleteHistory (db : DB) (aid : Nat) (today : Int) : AthleteHistorySummary :=
  let weekStats := aggregatePeriod db aid (today - 6) today
  let monthStats := aggregatePeriod db aid (today - 29) today
  { athlete_id := aid
    week_total_distance := weekStats.total_distance
    week_sessions := weekStats.sessions
    week_avg_rpe := weekStats.avg_rpe
    month_total_distance := monthStats.total_distance
    month_sessions := monthStats.sessions
    month_avg_rpe := monthStats.avg_rpe
    session_type_distribution := typeDistribution db aid (today - 29) today }

/-- `schemas/athlete.py WeeklyStat` (dates as day numbers). -/
structure WeeklyStat where
  start_date : Int
  end_date : Int
  total_distance : ℚ
  sessions : Nat
  avg_rpe : Option ℚ
deriving DecidableEq, Repr

/-- `athletes.py athlete_weekly_stats`: offsets `0..3`, each window
`[today - 7*offset - 6, today - 7*offset]`, returned oldest first. -/
def athleteWeeklyStats (db : DB) (aid : Nat) (today : Int) : List WeeklyStat :=
  (((List.range 4).map (fun offset =>
    let stop := today - (offset : Int) * 7
    let start := stop - 6
    let st := aggregatePeriod db aid start stop
    { start_date := start
      end_date := stop
      total_distance := st.total_distance
      sessions := st.sessions
      avg_rpe := st.avg_rpe : WeeklyStat })).reverse)

/-- `true` exactly on the success branch of an endpoint result. -/
def exOk {ε α : Type _} : Except ε α → Bool
  | .ok _ => true
  | .error _ => false

/- Concrete store used to instantiate the theorems: one coach, one
linked athlete, a two-session plan (dates 100 and 101) and one logged
completion of the first session on day 100. -/

def coachW : User := { id := 1, name := "Carla", email := "coach@x.com", role := .COACH }

def athleteW : User := { id := 2, name := "Ana", email := "ana@x.com", role := .ATHLETE }

def planW : TrainingPlan :=
  { id := 1, athlete_id := 2, name := "Base", goal_type := none,
    start_date := 100, end_date := 113, notes := none }

def plannedW1 : TrainingSessionPlanned :=
  { id := 1, plan_id := 1, date := 100, type := .RODAJE, title := "S1",
    description := none, planned_distance := none, planned_duration := none,
    planned_rpe := none, notes_for_athlete := none }

def plannedW2 : TrainingSessionPlanned :=
  { id := 2, plan_id := 1, date := 101, type := .PASADAS, title := "S2",
    description := none, planned_distance := none, planned_duration := none,
    planned_rpe := none, notes_for_athlete := none }

def doneW1 : TrainingSessionDone :=
  { id := 1, athlete_id := 2, planned_session_id := some 1, date := 100,
    actual_distance := some 8, actual_duration := none, actual_rpe := some 7,
    surface := none, shoes := none, notes := none }

def dbW : DB :=
  { users := [coachW, athleteW]
    profiles := []
    links := [{ id := 1, coach_id := 1, athlete_id := 2, since_date := 0 }]
    invites := []
    plans := [planW]
    plannedSessions := [plannedW1, plannedW2]
    dones := [doneW1]
    next_user_id := 3, next_link_id := 2, next_invite_id := 1
    next_plan_id := 2, next_planned_id := 3, next_done_id := 2 }

/-- A manual (unlinked) completion of athlete 2 on day 100. -/
def doneManual : TrainingSessionDone :=
  { id := 2, athlete_id := 2, planned_session_id := none, date := 100,
    actual_distance := some 5, actual_duration := none, actual_rpe := none,
    surface := none, shoes := none, notes := none }

/-- `dbW` plus an existing manual session on day 100. -/
def dbM : DB := { dbW with dones := [doneW1, doneManual], next_done_id := 3 }

/-- A manual creation payload for day 100. -/
def payloadManual : DoneCreate :=
  { date := 100, planned_session_id := none, actual_distance := some 5,
    actual_duration := none, actual_rpe := none, surface := none,
    shoes := none, notes := none }

/-- A creation payload referencing planned session 1. -/
def payloadPlanned : DoneCreate :=
  { date := 100, planned_session_id := some 1, actual_distance := some 8,
    actual_duration := none, actual_rpe := none, surface := none,
    shoes := none, notes := none }

/-- An invite from coach 1 already ACCEPTED by athlete 2. -/
def inviteDone : CoachInvite :=
  { id := 1, coach_id := 1, athlete_id := some 2, athlete_email := "ana@x.com",
    status := .ACCEPTED, created_at := 0, responded_at := some 1 }

/-- An invite from coach 1 still PENDING, bound to athlete 2. -/
def invitePending : CoachInvite :=
  { id := 1, coach_id := 1, athlete_id := some 2, athlete_email := "ana@x.com",
    status := .PENDING, created_at := 0, responded_at := none }

/-- `dbW` with the processed invite. -/
def dbInvDone : DB := { dbW with invites := [inviteDone], next_invite_id := 2 }

/-- `dbW` with the pending invite. -/
def dbInvPending : DB := { dbW with invites := [invitePending], next_invite_id := 2 }

/-- Duplication request: same athlete, start day 107 (a 7-day shift),
no explicit end date. -/
def dupReqW : PlanDuplicateRequest :=
  { start_date := 107, target_athlete_id := none, name := none,
    end_date := none, goal_type := none, notes := none }

/- Reachable counterexample state for invite idempotence: the coach
invites a registered athlete (invite stays PENDING), then creates a plan
for the athlete (which inserts the coach-athlete link), then repeats the
identical invite request. -/

def c4Db0 : DB :=
  { users := [coachW, athleteW]
    profiles := [], links := [], invites := [], plans := []
    plannedSessions := [], dones := []
    next_user_id := 3, next_link_id := 1, next_invite_id := 1
    next_plan_id := 1, next_planned_id := 1, next_done_id := 1 }

/-- The invite created by the first request in the counterexample trace. -/
def c4Inv : CoachInvite :=
  { id := 1, coach_id := 1, athlete_id := some 2, athlete_email := "ana@x.com",
    status := .PENDING, created_at := 0, responded_at := none }

/-- State after the first invite request. -/
def c4Db1 : DB :=
  match inviteAthlete c4Db0 1 "ana@x.com" 0 with
  | .ok pr => pr.2
  | .error _ => c4Db0

/-- The plan the coach then creates for athlete 2. -/
def c4PlanReq : PlanCreate :=
  { athlete_id := 2, name := "P", goal_type := none, start_date := 10,
    end_date := 20, notes := none, sessions := [] }

/-- State after the plan creation (now coach 1 and athlete 2 are linked,
while the invite is still PENDING). -/
def c4Db2 : DB :=
  match createPlan c4Db1 1 c4PlanReq with
  | .ok pr => pr.2
  | .error _ => c4Db1

/- Store exhibiting an unrounded exposed average effort: three manual
sessions on days 98, 99 and 100 with efforts 1, 2 and 2, whose mean is
5/3. -/

def c8Done (i : Nat) (d : Int) (rpe : Nat) : TrainingSessionDone :=
  { id := i, athlete_id := 2, planned_session_id := none, date := d,
    actual_distance := none, actual_duration := none, actual_rpe := some rpe,
    surface := none, shoes := none, notes := none }

def c8Db : DB :=
  { users := [athleteW]
    profiles := [], links := [], invites := [], plans := []
    plannedSessions := []
    dones := [c8Done 1 100 1, c8Done 2 99 2, c8Done 3 98 2]
    next_user_id := 3, next_link_id := 1, next_invite_id := 1
    next_plan_id := 1, next_planned_id := 1, next_done_id := 4 }

/- Store for deferred invite binding: the invite targets an email with
no account yet. -/

def c6Inv : CoachInvite :=
  { id := 1, coach_id := 1, athlete_id := none, athlete_email := "ana@x.com",
    status := .PENDING, created_at := 0, responded_at := none }

def c6Db : DB :=
  { users := [coachW]
    profiles := [], links := [], invites := [c6Inv], plans := []
    plannedSessions := [], dones := []
    next_user_id := 2, next_link_id := 1, next_invite_id := 2
    next_plan_id := 1, next_planned_id := 1, next_done_id := 1 }

def c6Reg : UserCreate := { name := "Ana", email := "ana@x.com", role := .ATHLETE }

lemma enum_map_snd_comp {α β : Type _} (l : List α) (g : α → β) :
    l.enum.map (fun ks => g ks.2) = l.map g := by
  rw [show (fun ks : Nat × α => g ks.2) = g ∘ Prod.snd from rfl, ← List.map_map,
    List.enum_map_snd]

/-- C1: in the coach roster metrics, every athlete's compliance rate is
`round(completed / planned, 2)` over the trailing 7-day window when the
planned count is positive, and absent when it is zero; each point of the
4-week coach trend obeys the same rule. -/
theorem compliance_rate_rule :
    (∀ db today coachId m, m ∈ buildCoachMetrics db today coachId →
      m.compliance_rate =
        if 0 < (plannedSessionsInWindow db m.athlete_id (today - 6) today).length
        then some (round2
          (((doneSessionsInWindow db m.athlete_id (today - 6) today).length : ℚ) /
           ((plannedSessionsInWindow db m.athlete_id (today - 6) today).length : ℚ)))
        else none) ∧
    (∀ db today aids weeks pt, pt ∈ buildWeeklyTrend db today aids weeks →
      pt.compliance_rate =
        if 0 < pt.planned_sessions
        then some (round2 ((pt.completed_sessions : ℚ) / (pt.planned_sessions : ℚ)))
        else none) := by
  constructor
  · intro db today coachId m hm
    rw [buildCoachMetrics, List.mem_map] at hm
    obtain ⟨row, _, rfl⟩ := hm
    rfl
  · intro db today aids weeks pt hpt
    rw [buildWeeklyTrend] at hpt
    by_cases h : aids.isEmpty
    · simp [h] at hpt
    · rw [if_neg h, List.mem_map] at hpt
      obtain ⟨off, _, rfl⟩ := hpt
      rfl

/-- C1 witness: on the concrete store, athlete 2 completed 1 of 1
planned sessions in the window ending on day 100, so the roster and the
one-week trend both report compliance 1. -/
theorem compliance_rate_rule_witness :
    (∃ m, m ∈ buildCoachMetrics dbW 100 1 ∧ m.compliance_rate = some 1) ∧
    (∃ pt, pt ∈ buildWeeklyTrend dbW 100 [2] 1 ∧ pt.compliance_rate = some 1) := by
  constructor
  · have hlist : buildCoachMetrics dbW 100 1 = [metricsFor dbW 100 (2, "Ana")] := by
      rw [buildCoachMetrics, show coachAthleteRows dbW 1 = [(2, "Ana")] from by
        with_unfolding_all rfl]
      rfl
    have hm : metricsFor dbW 100 (2, "Ana") ∈ buildCoachMetrics dbW 100 1 := by
      rw [hlist]; exact List.mem_singleton_self _
    refine ⟨_, hm, ?_⟩
    rw [compliance_rate_rule.1 dbW 100 1 _ hm]
    with_unfolding_all rfl
  · have hpt : trendPoint dbW [2] 94 100 ∈ buildWeeklyTrend dbW 100 [2] 1 := by
      rw [show buildWeeklyTrend dbW 100 [2] 1 = [trendPoint dbW [2] 94 100] from by
        with_unfolding_all rfl]
      exact List.mem_singleton_self _
    refine ⟨_, hpt, ?_⟩
    rw [compliance_rate_rule.2 dbW 100 [2] 1 _ hpt]
    with_unfolding_all rfl

/-- C7: every roster metric's pending-today equals
`max 0 (planned-today - completed-today)` and is never negative. -/
theorem pending_today_rule :
    ∀ db today coachId m, m ∈ buildCoachMetrics db today coachId →
      m.pending_sessions_today =
        max 0 (((plannedSessionsInWindow db m.athlete_id today today).length : Int) -
               ((doneSessionsInWindow db m.athlete_id today today).length : Int)) ∧
      0 ≤ m.pending_sessions_today := by
  intro db today coachId m hm
  rw [buildCoachMetrics, List.mem_map] at hm
  obtain ⟨row, _, rfl⟩ := hm
  exact ⟨rfl, le_max_left 0 _⟩

/-- C7 witness: athlete 2 has 1 planned and 1 completed session on day
100, so pending-today is 0 (and not negative). -/
theorem pending_today_rule_witness :
    ∃ m, m ∈ buildCoachMetrics dbW 100 1 ∧ m.pending_sessions_today = 0 ∧
      0 ≤ m.pending_sessions_today := by
  have hlist : buildCoachMetrics dbW 100 1 = [metricsFor dbW 100 (2, "Ana")] := by
    rw [buildCoachMetrics, show coachAthleteRows dbW 1 = [(2, "Ana")] from by
      with_unfolding_all rfl]
    rfl
  have hm : metricsFor dbW 100 (2, "Ana") ∈ buildCoachMetrics dbW 100 1 := by
    rw [hlist]; exact List.mem_singleton_self _
  obtain ⟨h1, h2⟩ := pending_today_rule dbW 100 1 _ hm
  refine ⟨_, hm, ?_, h2⟩
  rw [h1]; with_unfolding_all rfl

/-- C2: creating a completed session with no planned-session reference
fails with the domain-conflict error (producing no new store state) when
another unlinked done-record of the athlete exists on the same date, and
otherwise succeeds, appending exactly one record for that athlete and
date — regardless of records on other dates or linked records on the
same date. -/
theorem manual_duplicate_guard :
    ∀ db uid p, p.planned_session_id = none →
      (manualDuplicateExists db uid p.date = true →
        logCompletedSession db uid p =
          .error (.badRequest "A session for this date already exists.")) ∧
      (manualDuplicateExists db uid p.date = false →
        ∃ done db2, logCompletedSession db uid p = .ok (done, db2) ∧
          db2.dones = db.dones ++ [done] ∧ done.athlete_id = uid ∧
          done.date = p.date ∧ done.planned_session_id = none) := by
  intro db uid p hnone
  constructor
  · intro hdup
    simp [logCompletedSession, pyTruthy, hnone, hdup]
  · intro hdup
    simp only [logCompletedSession, pyTruthy, hnone, Option.getD_none,
      bne_self_eq_false, Bool.false_eq_true, if_false, hdup]
    exact ⟨_, _, rfl, rfl, rfl, rfl, rfl⟩

/-- C2 witness: with an existing manual session on day 100 the creation
fails; without one it succeeds even though a linked record exists on the
same date. -/
theorem manual_duplicate_guard_witness :
    (logCompletedSession dbM 2 payloadManual =
      .error (.badRequest "A session for this date already exists.")) ∧
    (∃ done db2, logCompletedSession dbW 2 payloadManual = .ok (done, db2) ∧
      db2.dones = dbW.dones ++ [done] ∧ done.athlete_id = 2 ∧
      done.date = payloadManual.date ∧ done.planned_session_id = none) :=
  ⟨(manual_duplicate_guard dbM 2 payloadManual rfl).1 (by with_unfolding_all rfl),
   (manual_duplicate_guard dbW 2 payloadManual rfl).2 (by with_unfolding_all rfl)⟩

/-- C3: creating a completed session that references an existing planned
session fails with the domain-conflict error when the acting athlete
(the plan's owner) already logged that planned session, and fails with
the access-denied error when the plan belongs to a different athlete; in
either case the error result carries no new store state. -/
theorem planned_duplicate_guard :
    ∀ db uid p pid planned pl,
      p.planned_session_id = some pid → pid ≠ 0 →
      db.plannedSessions.find? (fun s => s.id == pid) = some planned →
      db.planOf planned = some pl →
      (pl.athlete_id = uid → plannedDuplicateExists db uid pid = true →
        logCompletedSession db uid p =
          .error (.badRequest "You already logged this planned session.")) ∧
      (pl.athlete_id ≠ uid →
        logCompletedSession db uid p = .error (.forbidden "Not your session.")) := by
  intro db uid p pid planned pl hsome hpid hfind hplan
  constructor
  · intro howner hdup
    simp [logCompletedSession, pyTruthy, hsome, hpid, hfind, hplan, howner, hdup]
  · intro howner
    simp [logCompletedSession, pyTruthy, hsome, hpid, hfind, hplan, howner]

/-- C3 witness: athlete 2 already logged planned session 1, so a second
attempt fails with the conflict error; athlete 3 referencing the same
planned session fails with the access-denied error. -/
theorem planned_duplicate_guard_witness :
    (logCompletedSession dbW 2 payloadPlanned =
      .error (.badRequest "You already logged this planned session.")) ∧
    (logCompletedSession dbW 3 payloadPlanned =
      .error (.forbidden "Not your session.")) :=
  ⟨(planned_duplicate_guard dbW 2 payloadPlanned 1 plannedW1 planW rfl (by decide)
      (by with_unfolding_all rfl) (by with_unfolding_all rfl)).1 rfl
      (by with_unfolding_all rfl),
   (planned_duplicate_guard dbW 3 payloadPlanned 1 plannedW1 planW rfl (by decide)
      (by with_unfolding_all rfl) (by with_unfolding_all rfl)).2 (by decide)⟩

/-- C10: responding to a nonexistent invite id and responding to an
invite whose bound athlete is not the caller (including an unbound
invite) produce the identical not-found error, so the two cases are
indistinguishable to the caller; the error result carries no new store
state. -/
theorem respond_not_found_indistinguishable :
    ∀ db uid inviteId action now,
      (db.invites.find? (fun i => i.id == inviteId) = none →
        respondInvite db uid inviteId action now =
          .error (.notFound "Invite not found.")) ∧
      (∀ inv, db.invites.find? (fun i => i.id == inviteId) = some inv →
        inv.athlete_id ≠ some uid →
        respondInvite db uid inviteId action now =
          .error (.notFound "Invite not found.")) := by
  intro db uid inviteId action now
  constructor
  · intro hnone
    simp [respondInvite, hnone]
  · intro inv hfind hmismatch
    simp [respondInvite, hfind, hmismatch]

/-- C10 witness: invite 99 does not exist; invite 1 is bound to athlete
2, so caller 7 receives the same not-found error. -/
theorem respond_not_found_indistinguishable_witness :
    (respondInvite dbInvPending 2 99 .ACCEPT 0 =
      .error (.notFound "Invite not found.")) ∧
    (respondInvite dbInvPending 7 1 .ACCEPT 0 =
      .error (.notFound "Invite not found.")) :=
  ⟨(respond_not_found_indistinguishable dbInvPending 2 99 .ACCEPT 0).1
      (by with_unfolding_all rfl),
   (respond_not_found_indistinguishable dbInvPending 7 1 .ACCEPT 0).2 invitePending
      (by with_unfolding_all rfl) (by decide)⟩

/-- C5: the only status transitions performed are PENDING to ACCEPTED
and PENDING to DECLINED.  Responding to or reminding about a non-PENDING
invite (by its bound athlete / owning coach) fails with the
already-processed error, producing no new store state — so the invite's
status, athlete binding and responded timestamp are untouched; a
successful respond starts from a PENDING invite, rewrites only that
invite's row, and preserves its athlete binding; a successful remind
changes nothing. -/
theorem invite_terminal_states :
    (∀ db uid inviteId action now inv,
      db.invites.find? (fun i => i.id == inviteId) = some inv →
      inv.athlete_id = some uid → inv.status ≠ InviteStatus.PENDING →
      respondInvite db uid inviteId action now =
        .error (.badRequest "Invite already processed.")) ∧
    (∀ db coachId inviteId inv,
      db.invites.find? (fun i => i.id == inviteId) = some inv →
      inv.coach_id = coachId → inv.status ≠ InviteStatus.PENDING →
      remindInvite db coachId inviteId =
        .error (.badRequest "Invite already processed.")) ∧
    (∀ db uid inviteId action now inv2 db2,
      respondInvite db uid inviteId action now = .ok (inv2, db2) →
      ∃ inv, db.invites.find? (fun i => i.id == inviteId) = some inv ∧
        inv.status = InviteStatus.PENDING ∧
        inv2.status = (match action with
          | .ACCEPT => InviteStatus.ACCEPTED
          | .DECLINE => InviteStatus.DECLINED) ∧
        inv2.athlete_id = inv.athlete_id ∧
        db2.invites = db.invites.map (fun j => if j.id == inv.id then inv2 else j)) ∧
    (∀ db coachId inviteId inv2 db2,
      remindInvite db coachId inviteId = .ok (inv2, db2) → db2 = db) := by
  refine ⟨?_, ?_, ?_, ?_⟩
  · intro db uid inviteId action now inv hfind hbound hstatus
    simp [respondInvite, hfind, hbound, hstatus]
  · intro db coachId inviteId inv hfind howner hstatus
    simp [remindInvite, hfind, howner, hstatus]
  · intro db uid inviteId action now inv2 db2 hok
    rw [respondInvite.eq_def] at hok
    split at hok
    · simp at hok
    · rename_i inv hfind
      split at hok
      · simp at hok
      · split at hok
        · simp at hok
        · rename_i hbound hstatus
          rw [not_not] at hbound hstatus
          simp only [Except.ok.injEq, Prod.mk.injEq] at hok
          obtain ⟨hinv2, hdb2⟩ := hok
          refine ⟨inv, hfind, hstatus, ?_, ?_, ?_⟩
          · rw [← hinv2]
          · rw [← hinv2]
          · rw [← hdb2, ← hinv2]
            cases action with
            | ACCEPT =>
              by_cases hl :
                (db.links.any fun l =>
                  l.coach_id == inv.coach_id && l.athlete_id == uid) = true
              · rw [if_pos hl]; rfl
              · rw [if_neg hl]; rfl
            | DECLINE => rfl
  · intro db coachId inviteId inv2 db2 hok
    rw [remindInvite.eq_def] at hok
    split at hok
    · simp at hok
    · split at hok
      · simp at hok
      · split at hok
        · simp at hok
        · simp only [Except.ok.injEq, Prod.mk.injEq] at hok
          exact hok.2.symm

/-- C5 witness: invite 1 of `dbInvDone` is ACCEPTED, so responding and
reminding both fail with the already-processed error; on the PENDING
copy a respond succeeds and lands on ACCEPTED, and a remind leaves the
store untouched. -/
theorem invite_terminal_states_witness :
    (respondInvite dbInvDone 2 1 .ACCEPT 9 =
      .error (.badRequest "Invite already processed.")) ∧
    (remindInvite dbInvDone 1 1 =
      .error (.badRequest "Invite already processed.")) ∧
    (∃ inv2 db2, respondInvite dbInvPending 2 1 .ACCEPT 9 = .ok (inv2, db2) ∧
      inv2.status = InviteStatus.ACCEPTED) ∧
    (∃ inv2, remindInvite dbInvPending 1 1 = .ok (inv2, dbInvPending)) := by
  refine ⟨?_, ?_, ?_, ?_⟩
  · exact invite_terminal_states.1 dbInvDone 2 1 .ACCEPT 9 inviteDone
      (by with_unfolding_all rfl) rfl (by decide)
  · exact invite_terminal_states.2.1 dbInvDone 1 1 inviteDone
      (by with_unfolding_all rfl) rfl (by decide)
  · have hOk : exOk (respondInvite dbInvPending 2 1 .ACCEPT 9) = true := by
      with_unfolding_all rfl
    cases hEq : respondInvite dbInvPending 2 1 .ACCEPT 9 with
    | error e => rw [hEq] at hOk; simp [exOk] at hOk
    | ok pr =>
      obtain ⟨inv2, db2⟩ := pr
      obtain ⟨inv, _, _, hstat, _, _⟩ :=
        invite_terminal_states.2.2.1 dbInvPending 2 1 .ACCEPT 9 inv2 db2 hEq
      exact ⟨inv2, db2, rfl, hstat⟩
  · have hOk : exOk (remindInvite dbInvPending 1 1) = true := by
      with_unfolding_all rfl
    cases hEq : remindInvite dbInvPending 1 1 with
    | error e => rw [hEq] at hOk; simp [exOk] at hOk
    | ok pr =>
      obtain ⟨inv2, db2⟩ := pr
      have hdb := invite_terminal_states.2.2.2 dbInvPending 1 1 inv2 db2 hEq
      exact ⟨inv2, by rw [hdb]⟩

/-- C6: registering an athlete binds every PENDING, unbound invite whose
target email equals the new athlete's email to the new athlete, leaves
every other invite unchanged (the map sends non-matching invites to
themselves), and each bound invite afterwards appears in the athlete's
received-invite listing. -/
theorem deferred_invite_binding :
    ∀ db u user db2, u.role = UserRole.ATHLETE →
      registerUser db u = .ok (user, db2) →
      db2.invites = db.invites.map (fun i =>
        if i.athlete_id == none && i.athlete_email == u.email &&
            i.status == InviteStatus.PENDING
        then { i with athlete_id := some user.id } else i) ∧
      ∀ inv, inv ∈ db.invites → inv.athlete_id = none →
        inv.athlete_email = u.email → inv.status = InviteStatus.PENDING →
        { inv with athlete_id := some user.id } ∈ (listAthleteInvites db2 user).1 := by
  intro db u user db2 hrole hok
  rw [registerUser] at hok
  by_cases hmail : (db.users.any fun x => x.email == u.email) = true
  · rw [if_pos hmail] at hok; exact absurd hok (by simp)
  · rw [if_neg hmail] at hok
    simp only [Except.ok.injEq, Prod.mk.injEq] at hok
    obtain ⟨huser, hdb2⟩ := hok
    subst huser
    rw [if_pos hrole] at hdb2
    subst hdb2
    constructor
    · rw [attachPendingInvitesToUser, if_neg (not_not_intro hrole)]
    · intro inv hmem hunbound hemail hpend
      have hcond : (inv.athlete_id == none && inv.athlete_email == u.email &&
          inv.status == InviteStatus.PENDING) = true := by
        simp [hunbound, hemail, hpend]
      rw [listAthleteInvites]
      simp only
      rw [List.mem_mergeSort]
      rw [attachPendingInvitesToUser, if_neg (not_not_intro hrole)]
      refine List.mem_filter.mpr ⟨?_, by simp⟩
      have h1 : (if inv.athlete_id == none && inv.athlete_email == u.email &&
            inv.status == InviteStatus.PENDING
          then { inv with athlete_id := some db.next_user_id } else inv) =
          { inv with athlete_id := some db.next_user_id } := by
        rw [if_pos hcond]
      refine List.mem_map.mpr
        ⟨{ inv with athlete_id := some db.next_user_id }, ?_, by simp⟩
      rw [attachPendingInvitesToUser, if_neg (not_not_intro hrole)]
      exact List.mem_map.mpr ⟨inv, hmem, h1⟩

/-- C6 witness: the invite for "ana@x.com" is created before the account
exists; registering Ana binds it and it shows up in her listing. -/
theorem deferred_invite_binding_witness :
    ∃ user db2, registerUser c6Db c6Reg = .ok (user, db2) ∧
      { c6Inv with athlete_id := some user.id } ∈ (listAthleteInvites db2 user).1 := by
  have hOk : exOk (registerUser c6Db c6Reg) = true := by with_unfolding_all rfl
  cases hEq : registerUser c6Db c6Reg with
  | error e => rw [hEq] at hOk; simp [exOk] at hOk
  | ok pr =>
    obtain ⟨user, db2⟩ := pr
    obtain ⟨_, hlist⟩ := deferred_invite_binding c6Db c6Reg user db2 rfl hEq
    exact ⟨user, db2, rfl, hlist c6Inv (List.mem_singleton_self _) rfl rfl rfl⟩

lemma dup_sessions_dates (l : List TrainingSessionPlanned) (base pid : Nat)
    (shift : Int) :
    ((l.enum.map (fun ks =>
      ({ id := base + ks.1, plan_id := pid, date := ks.2.date + shift,
         type := ks.2.type, title := ks.2.title, description := ks.2.description,
         planned_distance := ks.2.planned_distance,
         planned_duration := ks.2.planned_duration,
         planned_rpe := ks.2.planned_rpe,
         notes_for_athlete := ks.2.notes_for_athlete } :
        TrainingSessionPlanned))).map (fun s => s.date)) =
      l.map (fun s => s.date + shift) := by
  rw [List.map_map]
  exact enum_map_snd_comp l (fun s => s.date + shift)

/-- C9: a successful plan duplication shifts every copied session date
by `N = requested start - original start`, keeps the requested start
date, and, when no explicit end date is supplied, sets the duplicate's
end date to the original end date plus `N`. -/
theorem plan_duplication_shift :
    ∀ db coachId planId p plan np ns db2,
      db.plans.find? (fun pl => pl.id == planId) = some plan →
      duplicatePlan db coachId planId p = .ok (np, ns, db2) →
      ns.map (fun s => s.date) =
        (sessionsOfPlan db plan.id).map
          (fun s => s.date + (p.start_date - plan.start_date)) ∧
      np.start_date = p.start_date ∧
      (p.end_date = none →
        np.end_date = plan.end_date + (p.start_date - plan.start_date)) := by
  intro db coachId planId p plan np ns db2 hfind hok
  rw [duplicatePlan.eq_def] at hok
  split at hok
  · simp at hok
  · rename_i plan2 hfind2
    rw [hfind] at hfind2
    injection hfind2 with h2
    subst h2
    split at hok
    · simp at hok
    · by_cases hacc :
        coachHasAccess db coachId (pyOrNat p.target_athlete_id plan.athlete_id) = true
      · rw [if_neg (not_not_intro hacc)] at hok
        simp only [Except.ok.injEq, Prod.mk.injEq] at hok
        obtain ⟨hnp, hns, _⟩ := hok
        refine ⟨?_, ?_, ?_⟩
        · rw [← hns]
          exact dup_sessions_dates (sessionsOfPlan db plan.id) db.next_planned_id
            db.next_plan_id (p.start_date - plan.start_date)
        · rw [← hnp]
        · intro hend
          rw [← hnp]
          show p.end_date.getD (plan.end_date + (p.start_date - plan.start_date)) = _
          rw [hend]
          rfl
      · rw [if_pos hacc] at hok
        simp at hok

/-- C9 witness: duplicating the two-session plan of `dbW` with start day
107 (shift 7) yields sessions on days 107 and 108 and end day 120. -/
theorem plan_duplication_shift_witness :
    ∃ np ns db2, duplicatePlan dbW 1 1 dupReqW = .ok (np, ns, db2) ∧
      ns.map (fun s => s.date) = [107, 108] ∧ np.end_date = 120 := by
  have hOk : exOk (duplicatePlan dbW 1 1 dupReqW) = true := by
    with_unfolding_all rfl
  cases hEq : duplicatePlan dbW 1 1 dupReqW with
  | error e => rw [hEq] at hOk; simp [exOk] at hOk
  | ok pr =>
    obtain ⟨np, ns, db2⟩ := pr
    obtain ⟨hdates, _, hend⟩ :=
      plan_duplication_shift dbW 1 1 dupReqW planW np ns db2
        (by with_unfolding_all rfl) hEq
    refine ⟨np, ns, db2, rfl, ?_, ?_⟩
    · rw [hdates]; with_unfolding_all rfl
    · rw [hend rfl]; with_unfolding_all rfl

/-- C4 (amended): while a PENDING invite for the same (coach, email)
pair exists, a repeated create-invite request that passes the create
guards (the email does not resolve to a non-athlete account, and the
resolved athlete is not already linked to the coach) creates no second
invite row and returns the existing pending invite, binding it to the
resolved athlete first when it had no bound athlete. -/
theorem invite_idempotent_amended :
    ∀ db coachId email now inv,
      findPendingInvite db coachId email = some inv →
      (∀ a, db.users.find? (fun u => u.email == email) = some a →
        a.role = UserRole.ATHLETE ∧
        (db.links.any fun l => l.coach_id == coachId && l.athlete_id == a.id) = false) →
      ∃ inv2 db2, inviteAthlete db coachId email now = .ok (inv2, db2) ∧
        inv2.id = inv.id ∧ inv2.status = InviteStatus.PENDING ∧
        db2.invites.length = db.invites.length ∧
        (inv.athlete_id = none →
          inv2.athlete_id =
            (db.users.find? (fun u => u.email == email)).map (fun a => a.id)) ∧
        (∀ x, inv.athlete_id = some x → inv2.athlete_id = some x) := by
  intro db coachId email now inv hpend hguard
  have hpend' := hpend
  rw [findPendingInvite] at hpend'
  have hpred := List.find?_some hpend'
  simp only [Bool.and_eq_true, beq_iff_eq] at hpred
  obtain ⟨⟨hc, he⟩, hs⟩ := hpred
  cases hu : db.users.find? (fun u => u.email == email) with
  | none =>
    refine ⟨inv, db, ?_, rfl, hs, rfl, ?_, ?_⟩
    · simp [inviteAthlete, hu, hpend]
    · intro h0; simp [hu, h0]
    · intro x hx; exact hx
  | some a =>
    obtain ⟨harole, hnolink⟩ := hguard a hu
    cases hai : inv.athlete_id with
    | none =>
      refine ⟨{ inv with athlete_id := some a.id },
        updateInvite db inv.id { inv with athlete_id := some a.id },
        ?_, rfl, hs, ?_, ?_, ?_⟩
      · simp [inviteAthlete, hu, hpend, harole, hnolink, hai]
      · simp [updateInvite]
      · intro h0; simp
      · intro x hx; simp at hx
    | some x0 =>
      refine ⟨inv, db, ?_, rfl, hs, rfl, ?_, ?_⟩
      · simp [inviteAthlete, hu, hpend, harole, hnolink, hai]
      · intro h0; simp at h0
      · intro x hx; exact hai.trans hx

/-- C4 (counterexample): the claim as stated is false.  Starting from an
empty store, the coach's first invite request succeeds, producing a
PENDING invite for (coach 1, "ana@x.com"); the coach then creates a plan
for athlete 2, which inserts the coach-athlete link; the identical
repeated invite request now fails with "Athlete already linked." while
the pending invite still exists — so the existing pending invite is not
returned. -/
theorem invite_idempotent_counterexample :
    inviteAthlete c4Db0 1 "ana@x.com" 0 = .ok (c4Inv, c4Db1) ∧
    (∃ pr, createPlan c4Db1 1 c4PlanReq = .ok pr ∧ pr.2 = c4Db2) ∧
    (c4Inv ∈ c4Db2.invites ∧ c4Inv.status = InviteStatus.PENDING) ∧
    inviteAthlete c4Db2 1 "ana@x.com" 5 =
      .error (.badRequest "Athlete already linked.") := by
  refine ⟨?_, ?_, ⟨?_, rfl⟩, ?_⟩
  · with_unfolding_all rfl
  · have hOk : exOk (createPlan c4Db1 1 c4PlanReq) = true := by
      with_unfolding_all rfl
    cases hEq : createPlan c4Db1 1 c4PlanReq with
    | error e => rw [hEq] at hOk; simp [exOk] at hOk
    | ok pr =>
      have h2 : c4Db2 = pr.2 := by unfold c4Db2; rw [hEq]
      exact ⟨pr, rfl, h2.symm⟩
  · rw [show c4Db2.invites = [c4Inv] from by with_unfolding_all rfl]
    exact List.mem_singleton_self _
  · with_unfolding_all rfl

/-- C4 witness (for the amended theorem): after the first request of the
counterexample trace the invite is PENDING and no link exists, so the
immediate repetition returns the same invite row and adds none. -/
theorem invite_idempotent_amended_witness :
    ∃ inv2 db2, inviteAthlete c4Db1 1 "ana@x.com" 7 = .ok (inv2, db2) ∧
      inv2.id = 1 ∧ db2.invites.length = c4Db1.invites.length := by
  obtain ⟨inv2, db2, hok, hid, _, hlen, _, _⟩ :=
    invite_idempotent_amended c4Db1 1 "ana@x.com" 7 c4Inv
      (by with_unfolding_all rfl)
      (by
        intro a ha
        rw [show c4Db1.users.find? (fun u => u.email == "ana@x.com") =
            some athleteW from by with_unfolding_all rfl] at ha
        injection ha with ha2
        subst ha2
        exact ⟨rfl, by with_unfolding_all rfl⟩)
  exact ⟨inv2, db2, hok, hid, hlen⟩

/-- C8 (counterexample): the claim as stated is false.  With three
completed sessions of efforts 1, 2 and 2 in the trailing week, the
athlete-history endpoint exposes week_avg_rpe = 5/3, which is not equal
to its own 2-decimal rounding (round2 (5/3) = 1.67), so the exposed
value is not rounded to 2 decimal places. -/
theorem rounding_at_exposure_counterexample :
    (athleteHistory c8Db 2 100).week_avg_rpe = some (5 / 3) ∧
    round2 (5 / 3) ≠ (5 / 3 : ℚ) := by
  constructor
  · with_unfolding_all rfl
  · have h : round2 (5 / 3) = 167 / 100 := by with_unfolding_all rfl
    rw [h]; norm_num

/-- C8 (amended): the dashboard rounds compliance rates at exposure (see
the C1 theorem), but the athlete history and weekly-stats endpoints
expose avg_rpe and total distance as the exact aggregates — the mean of
the recorded efforts and the coalesced distance sum over the window —
with no rounding applied. -/
theorem unrounded_exposure_amended :
    (∀ db aid today,
      (athleteHistory db aid today).week_avg_rpe =
        avgRpe (doneSessionsInWindow db aid (today - 6) today) ∧
      (athleteHistory db aid today).week_total_distance =
        distanceSum (doneSessionsInWindow db aid (today - 6) today) ∧
      (athleteHistory db aid today).month_avg_rpe =
        avgRpe (doneSessionsInWindow db aid (today - 29) today) ∧
      (athleteHistory db aid today).month_total_distance =
        distanceSum (doneSessionsInWindow db aid (today - 29) today)) ∧
    (∀ db aid today w, w ∈ athleteWeeklyStats db aid today →
      w.avg_rpe = avgRpe (doneSessionsInWindow db aid w.start_date w.end_date) ∧
      w.total_distance =
        distanceSum (doneSessionsInWindow db aid w.start_date w.end_date)) := by
  constructor
  · intro db aid today
    exact ⟨rfl, rfl, rfl, rfl⟩
  · intro db aid today w hw
    rw [athleteWeeklyStats, List.mem_reverse, List.mem_map] at hw
    obtain ⟨off, _, rfl⟩ := hw
    exact ⟨rfl, rfl⟩

/-- C8 witness (for the amended theorem): on the concrete store, the
week average effort exposed by the history endpoint equals the exact
mean 5/3 and the oldest weekly-stat window reports the exact (empty)
aggregates. -/
theorem unrounded_exposure_amended_witness :
    (athleteHistory c8Db 2 100).week_avg_rpe =
      avgRpe (doneSessionsInWindow c8Db 2 (100 - 6) 100) ∧
    ∃ w, w ∈ athleteWeeklyStats c8Db 2 100 ∧
      w.avg_rpe = avgRpe (doneSessionsInWindow c8Db 2 w.start_date w.end_date) := by
  refine ⟨(unrounded_exposure_amended.1 c8Db 2 100).1, ?_⟩
  have hlist : athleteWeeklyStats c8Db 2 100 =
      [{ start_date := 73, end_date := 79, total_distance := 0, sessions := 0,
         avg_rpe := none },
       { start_date := 80, end_date := 86, total_distance := 0, sessions := 0,
         avg_rpe := none },
       { start_date := 87, end_date := 93, total_distance := 0, sessions := 0,
         avg_rpe := none },
       { start_date := 94, end_date := 100, total_distance := 0, sessions := 3,
         avg_rpe := some (5 / 3) }] := by
    with_unfolding_all rfl
  have hmem :
      ({ start_date := 73
         end_date := 79
         total_distance := 0
         sessions := 0
         avg_rpe := none } : WeeklyStat) ∈ athleteWeeklyStats c8Db 2 100 := by
    rw [hlist]; exact List.mem_cons_self _ _
  exact ⟨_, hmem, (unrounded_exposure_amended.2 c8Db 2 100 _ hmem).1⟩
